import Mathlib

/-!
Shallow embedding of
`src/providers/google/src/airflow/providers/google/marketing_platform/sensors/campaign_manager.py`
(`GoogleCampaignManagerReportSensor`).

The sensor's `poke` method builds a fresh `GoogleCampaignManagerHook` from the
instance's connection id, api version and impersonation chain, issues a single
`get_report` call with the instance's `profile_id`, `report_id` and `file_id`,
logs the returned status and returns whether the status is neither
`"PROCESSING"` nor `"QUEUED"`.

The external API client is modelled as an environment function from the call's
arguments to either a raised exception or a response mapping.  `poke` is
embedded as a pure function returning an instrumented trace: the list of
collaborator calls it performed, the log lines it emitted, its result (a
boolean, or the propagated exception), and the post-invocation instance state.
-/

/-- Python exceptions that can cross the `poke` boundary: `response["status"]`
raises `KeyError` when the key is missing, and the API client may raise
network, authentication or other errors. -/
inductive Exn where
  | keyError (key : String)
  | networkError (msg : String)
  | authError (msg : String)
  | otherError (msg : String)
deriving DecidableEq

/-- The API response, an ephemeral string-keyed mapping (`response` in the
source); `response["status"]` is `Response.lookup "status"`, raising
`KeyError` on `none`. -/
abbrev Response := List (String × String)

/-- `impersonation_chain : str | Sequence[str] | None`. -/
abbrev ImpersonationChain := Option (String ⊕ List String)

/-- The opaque execution context the host framework passes to `poke`;
the method body never reads it. -/
structure Context where
  data : List (String × String)
deriving DecidableEq

/-- The arguments the sensor passes to the `GoogleCampaignManagerHook`
constructor inside `poke`. -/
structure GoogleCampaignManagerHook where
  gcp_conn_id : String
  api_version : String
  impersonation_chain : ImpersonationChain
deriving DecidableEq

/-- One invocation of `hook.get_report(...)`: the hook it was called on and
the identifier triple passed to it. -/
structure GetReportCall where
  hook : GoogleCampaignManagerHook
  profile_id : String
  report_id : String
  file_id : String
deriving DecidableEq

/-- The external API client: maps a `get_report` invocation to either a raised
exception or a response mapping. -/
abbrev ApiEnv := GetReportCall → Except Exn Response

/-- The instance fields assigned in
`GoogleCampaignManagerReportSensor.__init__`. -/
structure GoogleCampaignManagerReportSensor where
  profile_id : String
  report_id : String
  file_id : String
  api_version : String
  gcp_conn_id : String
  mode : String
  poke_interval : Nat
  impersonation_chain : ImpersonationChain
deriving DecidableEq

namespace GoogleCampaignManagerReportSensor

/-- `template_fields` of the sensor class. -/
def template_fields : List String :=
  ["profile_id", "report_id", "file_id", "impersonation_chain"]

/-- `__init__`: keyword arguments with the source's defaults
(`api_version="v4"`, `gcp_conn_id="google_cloud_default"`,
`mode="reschedule"`, `poke_interval=60 * 5`, `impersonation_chain=None`). -/
def init (profile_id : String) (report_id : String) (file_id : String)
    (api_version : String := "v4")
    (gcp_conn_id : String := "google_cloud_default")
    (mode : String := "reschedule")
    (poke_interval : Nat := 60 * 5)
    (impersonation_chain : ImpersonationChain := none) :
    GoogleCampaignManagerReportSensor :=
  { profile_id := profile_id
    report_id := report_id
    file_id := file_id
    api_version := api_version
    gcp_conn_id := gcp_conn_id
    mode := mode
    poke_interval := poke_interval
    impersonation_chain := impersonation_chain }

/-- The `GoogleCampaignManagerHook(...)` constructed at the top of `poke` from
the instance's `gcp_conn_id`, `api_version` and `impersonation_chain`. -/
def mkHook (self : GoogleCampaignManagerReportSensor) : GoogleCampaignManagerHook :=
  { gcp_conn_id := self.gcp_conn_id
    api_version := self.api_version
    impersonation_chain := self.impersonation_chain }

/-- The single `hook.get_report(profile_id=..., report_id=..., file_id=...)`
invocation `poke` performs. -/
def mkGetReportCall (self : GoogleCampaignManagerReportSensor) : GetReportCall :=
  { hook := self.mkHook
    profile_id := self.profile_id
    report_id := self.report_id
    file_id := self.file_id }

/-- Instrumented outcome of one `poke` invocation: collaborator calls made,
log lines emitted, the returned boolean or propagated exception, and the
instance state after the invocation. -/
structure PokeTrace where
  calls : List GetReportCall
  logs : List String
  result : Except Exn Bool
  selfAfter : GoogleCampaignManagerReportSensor

/-- `poke`: build a fresh hook, call `get_report` once, then evaluate
`response["status"]` (raising `KeyError "status"` if absent), log
`"Report status: %s"` with it, and return
`response["status"] not in ("PROCESSING", "QUEUED")`.  An exception from the
API client propagates unmodified; the instance fields are never assigned. -/
def poke (self : GoogleCampaignManagerReportSensor) (env : ApiEnv)
    (context : Context) : PokeTrace :=
  let call := self.mkGetReportCall
  match env call with
  | Except.error e =>
      { calls := [call], logs := [], result := Except.error e, selfAfter := self }
  | Except.ok response =>
      match response.lookup "status" with
      | none =>
          { calls := [call], logs := [],
            result := Except.error (Exn.keyError "status"), selfAfter := self }
      | some status =>
          { calls := [call]
            logs := ["Report status: " ++ status]
            result := Except.ok (decide (status ∉ ["PROCESSING", "QUEUED"]))
            selfAfter := self }

end GoogleCampaignManagerReportSensor

open GoogleCampaignManagerReportSensor

/-- C1: for every API response whose `status` field is `"PROCESSING"` or
`"QUEUED"`, `poke` returns `false`. -/
theorem poke_false_of_in_progress
    (self : GoogleCampaignManagerReportSensor) (env : ApiEnv) (context : Context)
    (response : Response) (status : String)
    (henv : env self.mkGetReportCall = Except.ok response)
    (hstatus : response.lookup "status" = some status)
    (hin : status = "PROCESSING" ∨ status = "QUEUED") :
    (self.poke env context).result = Except.ok false := by
  rcases hin with h | h <;> subst h <;>
    simp [GoogleCampaignManagerReportSensor.poke, henv, hstatus]

/-- C1 witness: a concrete sensor polling an API that reports
`"PROCESSING"` yields `false`. -/
theorem poke_false_of_in_progress_witness :
    ((init "p" "r" "f").poke (fun _ => Except.ok [("status", "PROCESSING")])
        ⟨[]⟩).result = Except.ok false :=
  poke_false_of_in_progress (init "p" "r" "f")
    (fun _ => Except.ok [("status", "PROCESSING")]) ⟨[]⟩
    [("status", "PROCESSING")] "PROCESSING" rfl rfl (Or.inl rfl)

/-- C2: for every API response whose `status` field is any string other than
`"PROCESSING"` or `"QUEUED"` — including terminal failure values — `poke`
returns `true`; the check makes no distinction between successful and failed
terminal statuses. -/
theorem poke_true_of_not_in_progress
    (self : GoogleCampaignManagerReportSensor) (env : ApiEnv) (context : Context)
    (response : Response) (status : String)
    (henv : env self.mkGetReportCall = Except.ok response)
    (hstatus : response.lookup "status" = some status)
    (hne : status ≠ "PROCESSING" ∧ status ≠ "QUEUED") :
    (self.poke env context).result = Except.ok true := by
  simp [GoogleCampaignManagerReportSensor.poke, henv, hstatus, hne.1, hne.2]

/-- C2 witness: a response with the terminal failure status `"FAILED"` makes
`poke` return `true`. -/
theorem poke_true_of_not_in_progress_witness :
    ((init "p" "r" "f").poke (fun _ => Except.ok [("status", "FAILED")])
        ⟨[]⟩).result = Except.ok true :=
  poke_true_of_not_in_progress (init "p" "r" "f")
    (fun _ => Except.ok [("status", "FAILED")]) ⟨[]⟩
    [("status", "FAILED")] "FAILED" rfl rfl
    ⟨by decide, by decide⟩

/-- C3: each invocation of `poke` calls `get_report` exactly once, passing the
instance's `profile_id`, `report_id` and `file_id` through unchanged. -/
theorem poke_calls_get_report_once
    (self : GoogleCampaignManagerReportSensor) (env : ApiEnv) (context : Context) :
    (self.poke env context).calls =
      [{ hook := self.mkHook
         profile_id := self.profile_id
         report_id := self.report_id
         file_id := self.file_id }] := by
  cases h : env self.mkGetReportCall with
  | error e =>
      simp only [mkGetReportCall, mkHook] at h
      simp [GoogleCampaignManagerReportSensor.poke, mkGetReportCall, mkHook, h]
  | ok response =>
      simp only [mkGetReportCall, mkHook] at h
      cases hs : response.lookup "status" <;>
        simp [GoogleCampaignManagerReportSensor.poke, mkGetReportCall, mkHook, h, hs]

/-- C4: if the API client raises any error, `poke` does not catch it: the same
exception propagates unmodified, and the instance's configuration fields are
unchanged. -/
theorem poke_propagates_api_error
    (self : GoogleCampaignManagerReportSensor) (env : ApiEnv) (context : Context)
    (e : Exn)
    (henv : env self.mkGetReportCall = Except.error e) :
    (self.poke env context).result = Except.error e ∧
      (self.poke env context).selfAfter = self := by
  constructor <;> simp [GoogleCampaignManagerReportSensor.poke, henv]

/-- C4 witness: a network error raised by the API client comes back verbatim
from `poke`, with the instance state intact. -/
theorem poke_propagates_api_error_witness :
    ((init "p" "r" "f").poke
        (fun _ => Except.error (Exn.networkError "timeout")) ⟨[]⟩).result =
      Except.error (Exn.networkError "timeout") ∧
    ((init "p" "r" "f").poke
        (fun _ => Except.error (Exn.networkError "timeout")) ⟨[]⟩).selfAfter =
      init "p" "r" "f" :=
  poke_propagates_api_error (init "p" "r" "f")
    (fun _ => Except.error (Exn.networkError "timeout")) ⟨[]⟩
    (Exn.networkError "timeout") rfl

/-- C5: construction with only `profile_id`, `report_id` and `file_id`
succeeds and yields `api_version = "v4"`,
`gcp_conn_id = "google_cloud_default"`, `mode = "reschedule"` and
`poke_interval = 300` seconds. -/
theorem init_defaults (p r f : String) :
    (init p r f).api_version = "v4" ∧
      (init p r f).gcp_conn_id = "google_cloud_default" ∧
      (init p r f).mode = "reschedule" ∧
      (init p r f).poke_interval = 300 :=
  ⟨rfl, rfl, rfl, rfl⟩

/-- C6: on every invocation of `poke`, the hook used for the `get_report`
call is constructed from the instance's current `gcp_conn_id`, `api_version`
and `impersonation_chain`; nothing else supplies a hook. -/
theorem poke_constructs_fresh_hook
    (self : GoogleCampaignManagerReportSensor) (env : ApiEnv) (context : Context) :
    ((self.poke env context).calls.map GetReportCall.hook) =
      [{ gcp_conn_id := self.gcp_conn_id
         api_version := self.api_version
         impersonation_chain := self.impersonation_chain }] := by
  cases h : env self.mkGetReportCall with
  | error e =>
      simp only [mkGetReportCall, mkHook] at h
      simp [GoogleCampaignManagerReportSensor.poke, mkGetReportCall, mkHook, h]
  | ok response =>
      simp only [mkGetReportCall, mkHook] at h
      cases hs : response.lookup "status" <;>
        simp [GoogleCampaignManagerReportSensor.poke, mkGetReportCall, mkHook, h, hs]

/-- C7: the boolean outcome of `poke` depends only on the `status` field of
the response: two invocations whose responses agree on `status` return equal
results, whatever the other response fields, the sensors, or the execution
contexts. -/
theorem poke_result_depends_only_on_status
    (s₁ s₂ : GoogleCampaignManagerReportSensor) (env₁ env₂ : ApiEnv)
    (c₁ c₂ : Context) (r₁ r₂ : Response) (status : String)
    (h₁ : env₁ s₁.mkGetReportCall = Except.ok r₁)
    (h₂ : env₂ s₂.mkGetReportCall = Except.ok r₂)
    (hs₁ : r₁.lookup "status" = some status)
    (hs₂ : r₂.lookup "status" = some status) :
    (s₁.poke env₁ c₁).result = (s₂.poke env₂ c₂).result := by
  simp [GoogleCampaignManagerReportSensor.poke, h₁, h₂, hs₁, hs₂]

/-- C7 witness: two invocations with different sensors, contexts and extra
response fields but the same `"AVAILABLE"` status return the same result. -/
theorem poke_result_depends_only_on_status_witness :
    ((init "p" "r" "f").poke
        (fun _ => Except.ok [("status", "AVAILABLE"), ("etag", "x")])
        ⟨[("k", "v")]⟩).result =
      ((init "p2" "r2" "f2" "v3").poke
        (fun _ => Except.ok [("status", "AVAILABLE")]) ⟨[]⟩).result :=
  poke_result_depends_only_on_status (init "p" "r" "f") (init "p2" "r2" "f2" "v3")
    (fun _ => Except.ok [("status", "AVAILABLE"), ("etag", "x")])
    (fun _ => Except.ok [("status", "AVAILABLE")])
    ⟨[("k", "v")]⟩ ⟨[]⟩
    [("status", "AVAILABLE"), ("etag", "x")] [("status", "AVAILABLE")]
    "AVAILABLE" rfl rfl rfl rfl

/-- C8: `poke` never modifies any instance configuration field: the instance
state after any invocation equals the state before it. -/
theorem poke_preserves_config
    (self : GoogleCampaignManagerReportSensor) (env : ApiEnv) (context : Context) :
    (self.poke env context).selfAfter = self := by
  cases h : env self.mkGetReportCall with
  | error e => simp [GoogleCampaignManagerReportSensor.poke, h]
  | ok response =>
      cases hs : response.lookup "status" <;>
        simp [GoogleCampaignManagerReportSensor.poke, h, hs]

/-- C9: the status comparison in `poke` is an exact, case-sensitive membership
test: strings differing from `"PROCESSING"` or `"QUEUED"` only in case or
whitespace make `poke` return `true`. -/
theorem poke_status_comparison_exact
    (self : GoogleCampaignManagerReportSensor) (env : ApiEnv) (context : Context)
    (response : Response) (status : String)
    (henv : env self.mkGetReportCall = Except.ok response)
    (hstatus : response.lookup "status" = some status)
    (hmem : status ∈ ["processing", "Processing", "queued", "Queued",
                      "QUEUED ", " PROCESSING"]) :
    (self.poke env context).result = Except.ok true := by
  simp only [List.mem_cons, List.not_mem_nil, or_false] at hmem
  rcases hmem with h | h | h | h | h | h <;> subst h <;>
    simp [GoogleCampaignManagerReportSensor.poke, henv, hstatus]

/-- C9 witness: the lowercase status `"processing"` makes `poke` return
`true`. -/
theorem poke_status_comparison_exact_witness :
    ((init "p" "r" "f").poke (fun _ => Except.ok [("status", "processing")])
        ⟨[]⟩).result = Except.ok true :=
  poke_status_comparison_exact (init "p" "r" "f")
    (fun _ => Except.ok [("status", "processing")]) ⟨[]⟩
    [("status", "processing")] "processing" rfl rfl (by decide)

/-- C10: if the response lacks the `"status"` key, `poke` raises `KeyError`
while evaluating the logging statement's argument, so no status log line is
emitted. -/
theorem poke_no_log_on_missing_status
    (self : GoogleCampaignManagerReportSensor) (env : ApiEnv) (context : Context)
    (response : Response)
    (henv : env self.mkGetReportCall = Except.ok response)
    (hmiss : response.lookup "status" = none) :
    (self.poke env context).logs = [] ∧
      (self.poke env context).result = Except.error (Exn.keyError "status") := by
  constructor <;> simp [GoogleCampaignManagerReportSensor.poke, henv, hmiss]

/-- C10 witness: a response without a `"status"` key produces no log line and
a `KeyError "status"`. -/
theorem poke_no_log_on_missing_status_witness :
    ((init "p" "r" "f").poke (fun _ => Except.ok [("etag", "x")]) ⟨[]⟩).logs =
        [] ∧
      ((init "p" "r" "f").poke (fun _ => Except.ok [("etag", "x")])
          ⟨[]⟩).result = Except.error (Exn.keyError "status") :=
  poke_no_log_on_missing_status (init "p" "r" "f")
    (fun _ => Except.ok [("etag", "x")]) ⟨[]⟩ [("etag", "x")] rfl rfl
